import Mathlib

/-!
Shallow embedding of the attachmentav-github-action core: the size-tiered
target resolver, the scan transports, the async poll loop and the
orchestrator pass/fail tail, translated from `src/api.ts`, `src/fileUtils.ts`,
`src/github.ts` and the action entry point (`main.ts`).

Network interaction is modelled by passing the HTTP responses the code would
observe as explicit data (a response per poll time, or an oracle list of
responses of which each `fetch` consumes the head). Machine integers are
`Nat`; JavaScript truthiness of optional string inputs is made explicit.
-/

namespace AttachmentAV

/-- Scan verdict strings of the attachmentAV response: clean | infected | no. -/
inductive ScanStatus
  | clean
  | infected
  | no
deriving DecidableEq

/-- AttachmentAVResponse from types.ts: status plus optional finding, size and
realfiletype fields (size is optional). -/
structure AVResponse where
  status : ScanStatus
  finding : Option String
  size : Option Nat
  realfiletype : Option String
deriving DecidableEq

/-- Response observed by one poll of GET /v1/scan/async/result: HTTP status,
raw text, and the parsed JSON body when the body parses as a response. -/
structure ResultResponse where
  status : Nat
  text : String
  body : Option AVResponse
deriving DecidableEq

/-- fetch Response.ok: HTTP status in the inclusive range 200..299. -/
def respOk (status : Nat) : Bool :=
  decide (200 ≤ status ∧ status ≤ 299)

/-- Possible ends of pollAsyncResult (api.ts). `result` carries the parsed
body with the elapsed milliseconds at return and the fetch/sleep counts;
`timedOut` is the final throw, carrying the seconds figure the message
reports, the value of the `elapsed` variable at the throw, and the
fetch/sleep counts; `apiError` is the non-404 non-2xx throw. -/
inductive PollOutcome
  | result (r : AVResponse) (elapsedMs fetches sleeps : Nat)
  | apiError (status : Nat) (text : String)
  | malformedBody (elapsedMs : Nat)
  | timedOut (reportedSeconds elapsedMs fetches sleeps : Nat)
  | fuelOut
deriving DecidableEq

/-- Loop of pollAsyncResult (api.ts lines 111-150), fuel-indexed. State is
(now, elapsed, fetches, sleeps): `now` is Date.now() minus startTime in this
model (each fetch is instantaneous, sleeps advance time by the polling
interval), `elapsed` is the JS variable of the same name, updated only right
after a fetch. The loop guard is the source text `while (elapsed >= timeoutMs)`;
leaving the loop throws the timeout error. -/
def pollGo (respAt : Nat → ResultResponse) (timeoutSeconds timeoutMs pollingIntervalMs : Nat) :
    Nat → Nat → Nat → Nat → Nat → PollOutcome
  | 0, _, _, _, _ => .fuelOut
  | fuel + 1, now, elapsed, fetches, sleeps =>
    if timeoutMs ≤ elapsed then
      let resp := respAt now
      if resp.status = 404 then
        pollGo respAt timeoutSeconds timeoutMs pollingIntervalMs fuel
          (now + pollingIntervalMs) now (fetches + 1) (sleeps + 1)
      else if respOk resp.status then
        match resp.body with
        | some r => .result r now (fetches + 1) sleeps
        | none => .malformedBody now
      else .apiError resp.status resp.text
    else .timedOut timeoutSeconds elapsed fetches sleeps

/-- pollAsyncResult (api.ts lines 95-151): timeoutMs = timeoutSeconds * 1000,
pollingIntervalMs = pollingIntervalSeconds * 1000, elapsed starts at 0. -/
def pollAsyncResult (respAt : Nat → ResultResponse) (timeoutSeconds pollingIntervalSeconds : Nat) :
    PollOutcome :=
  pollGo respAt timeoutSeconds (timeoutSeconds * 1000) (pollingIntervalSeconds * 1000)
    (timeoutSeconds + 2) 0 0 0 0

/-- Result endpoint of the C1 scenario: 404 strictly before t = 5 s, then 200
with parsed body status clean, size 42. -/
def c1Responses : Nat → ResultResponse := fun now =>
  if now < 5000 then ⟨404, "", none⟩
  else ⟨200, "", some ⟨ScanStatus.clean, none, some 42, none⟩⟩

/-- Result endpoint of the C2 scenario: 404 at every poll. -/
def c2Responses : Nat → ResultResponse := fun _ => ⟨404, "", none⟩

/-! Size constants of fileUtils.ts and main.ts. -/

def MB : Nat := 1024 * 1024

/-- fileUtils.ts: MAX_SYNC_SIZE = 10 * MB. -/
def MAX_SYNC_SIZE : Nat := 10 * MB

/-- fileUtils.ts: MAX_ASYNC_SIZE = 5 * 1024 * 1024 * MB (5 TB). -/
def MAX_ASYNC_SIZE : Nat := 5 * 1024 * 1024 * MB

/-- main.ts: SYNC_DOWNLOAD_THRESHOLD = 200 * MB. -/
def SYNC_DOWNLOAD_THRESHOLD : Nat := 200 * MB

/-- A local file as the filesystem presents it to readFileAndCheckSize:
whether fs.access succeeds, the stat size, and the byte contents fs.readFile
would return. -/
structure FsFile where
  present : Bool
  size : Nat
  contents : List Nat
deriving DecidableEq

/-- Errors thrown on the local-file path. Each constructor stands for one
throw site; `localErrorMessage` gives the message text of each. The size-limit
constructors carry the formatBytes rendering of the size interpolated into the
message (formatBytes does floating-point arithmetic and is passed in
abstractly). -/
inductive LocalError
  | notFound (path : String)
  | exceedsAsyncLimit (formattedSize : String)
  | exceedsSyncLimit (formattedSize : String)
  | localFileTooLargeForSync
deriving DecidableEq

/-- Message text of each local-file throw site, from fileUtils.ts lines 18,
27-29, 33-37 and main.ts handleLocalFilePath lines 27-29. -/
def localErrorMessage : LocalError → String
  | .notFound p => "File not found: " ++ p
  | .exceedsAsyncLimit s =>
      "File size (" ++ s ++ ") exceeds maximum supported size of 5TB"
  | .exceedsSyncLimit s =>
      "File size (" ++ s ++ ") exceeds sync API limit of 10MB. Async API support for larger files is planned for a future release."
  | .localFileTooLargeForSync =>
      "Local files >10MB require async API, but local files cannot be directly accessed by attachmentAV. Please upload the file as a release asset or artifact first."

/-- Substring test on character lists, structural in the haystack. -/
def charListHasSub : List Char → List Char → Bool
  | [], pat => pat.isEmpty
  | c :: cs, pat => if (c :: cs).take pat.length = pat then true else charListHasSub cs pat

/-- Whether a message tells the user to upload the file as a release asset or
artifact (the instruction the spec requires of the over-10MiB error). -/
def mentionsArtifactUpload (msg : String) : Bool :=
  charListHasSub msg.data "upload the file as a release asset or artifact".data

/-- readFileAndCheckSize (fileUtils.ts lines 8-44): fail if the file is
absent; fail if size exceeds 5 TB; fail if size exceeds 10 MB; otherwise read
the full contents and return them with the size. -/
def readFileAndCheckSize (formatBytes : Nat → String) (filePath : String) (file : FsFile) :
    Except LocalError (List Nat × Nat) :=
  if file.present = false then .error (.notFound filePath)
  else if MAX_ASYNC_SIZE < file.size then .error (.exceedsAsyncLimit (formatBytes file.size))
  else if MAX_SYNC_SIZE < file.size then .error (.exceedsSyncLimit (formatBytes file.size))
  else .ok (file.contents, file.size)

/-- download_url plus optional download_headers, the body of
POST /v1/scan/sync/download (AttachmentAVSyncDownloadRequest in types.ts). -/
structure SyncDownloadRequest where
  download_url : String
  download_headers : Option (List (String × String))
deriving DecidableEq

/-- download_url, optional download_headers and trace_id, the body of
POST /v1/scan/async/download (AttachmentAVAsyncRequest in types.ts). -/
structure AsyncRequest where
  download_url : String
  download_headers : Option (List (String × String))
  trace_id : String
deriving DecidableEq

/-- The one request the orchestrator hands to the scanning service:
raw bytes to the sync binary endpoint, a sync download request, or an async
submit request. -/
inductive SentRequest
  | syncBinary (buffer : List Nat)
  | syncDownload (req : SyncDownloadRequest)
  | asyncSubmit (req : AsyncRequest)
deriving DecidableEq

/-- True exactly on the direct-upload (sync binary) request shape. -/
def isSyncBinary : SentRequest → Bool
  | .syncBinary _ => true
  | _ => false

/-- handleLocalFilePath (main.ts lines 12-31): read the file through
readFileAndCheckSize; sizes up to MAX_SYNC_SIZE go to scanFileSync with the
full buffer; the else branch throws the upload-as-artifact error. -/
def handleLocalFilePath (formatBytes : Nat → String) (localFilePath : String) (file : FsFile) :
    Except LocalError SentRequest :=
  match readFileAndCheckSize formatBytes localFilePath file with
  | .error e => .error e
  | .ok (buffer, size) =>
    if size ≤ MAX_SYNC_SIZE then .ok (.syncBinary buffer)
    else .error .localFileTooLargeForSync

/-- JavaScript truthiness of the optional token input: undefined and the empty
string are falsy. -/
def jsTruthy : Option String → Bool
  | none => false
  | some s => if s = "" then false else true

/-- download_headers construction of submitAndPollAsyncScan (main.ts lines
44-47 and 54): an Authorization Bearer entry when the token is truthy, and the
field left undefined when the header map is empty. -/
def buildDownloadHeaders (token : Option String) : Option (List (String × String)) :=
  let downloadHeaders : List (String × String) :=
    match token with
    | some t => if t = "" then [] else [("Authorization", "Bearer " ++ t)]
    | none => []
  if 0 < downloadHeaders.length then some downloadHeaders else none

/-- GitHubArtifact metadata (types.ts). -/
structure Artifact where
  id : Nat
  name : String
  size_in_bytes : Nat
  archive_download_url : String
deriving DecidableEq

/-- GitHubReleaseAsset metadata (types.ts). -/
structure ReleaseAsset where
  id : Nat
  name : String
  size : Nat
  url : String
  browser_download_url : String
deriving DecidableEq

/-- Calls the orchestrator makes against the GitHub hosting API, in order. -/
inductive HostCall
  | getArtifactCall (id : Nat)
  | getReleaseAssetCall (id : Nat)
  | getActualDownloadUrlCall (url : String)
deriving DecidableEq

/-- Errors thrown by the orchestrator itself. -/
inductive OrchError
  | missingCredential (msg : String)
deriving DecidableEq

/-- handleArtifact (main.ts lines 68-109): throw when the token is falsy,
before any hosting-API call; otherwise fetch the artifact metadata, resolve
the redirect on its archive_download_url, and send a sync download request
carrying only download_url when size_in_bytes is below
SYNC_DOWNLOAD_THRESHOLD, else an async submit request whose download_headers
come from the token. The artifact metadata, the resolved download URL and the
generated trace id are the values the external calls would return. -/
def handleArtifact (artifactId : Nat) (token : Option String) (artifact : Artifact)
    (actualDownloadUrl traceId : String) :
    List HostCall × Except OrchError SentRequest :=
  if jsTruthy token = false then
    ([], .error (.missingCredential "GitHub token is required for scanning artifacts"))
  else
    let calls := [HostCall.getArtifactCall artifactId,
                  HostCall.getActualDownloadUrlCall artifact.archive_download_url]
    if artifact.size_in_bytes < SYNC_DOWNLOAD_THRESHOLD then
      (calls, .ok (.syncDownload ⟨actualDownloadUrl, none⟩))
    else
      (calls, .ok (.asyncSubmit ⟨actualDownloadUrl, buildDownloadHeaders token, traceId⟩))

/-- handleReleaseAsset (main.ts lines 111-146): no token requirement; fetch
the asset metadata, resolve the redirect on its url, and choose the transport
by size against SYNC_DOWNLOAD_THRESHOLD exactly as handleArtifact does. -/
def handleReleaseAsset (releaseAssetId : Nat) (token : Option String) (asset : ReleaseAsset)
    (actualDownloadUrl traceId : String) :
    List HostCall × Except OrchError SentRequest :=
  let calls := [HostCall.getReleaseAssetCall releaseAssetId,
                HostCall.getActualDownloadUrlCall asset.url]
  if asset.size < SYNC_DOWNLOAD_THRESHOLD then
    (calls, .ok (.syncDownload ⟨actualDownloadUrl, none⟩))
  else
    (calls, .ok (.asyncSubmit ⟨actualDownloadUrl, buildDownloadHeaders token, traceId⟩))

/-- Response observed by the non-following GET of getActualDownloadUrl:
HTTP status, status text and the value of the Location header when present. -/
structure RedirectResponse where
  status : Nat
  statusText : String
  location : Option String
deriving DecidableEq

/-- Errors thrown by getActualDownloadUrl (github.ts lines 66-79):
missing Location on a redirect status, or a non-redirect status. -/
inductive RedirectError
  | missingRedirectTarget
  | redirectExpected (status : Nat) (statusText : String)
  | noResponse
deriving DecidableEq

/-- The target-kind hint selecting the Accept header (github.ts line 52). -/
inductive TargetKind
  | artifact
  | releaseAsset
deriving DecidableEq

/-- Accept header value chosen from the target-kind hint (github.ts line 52). -/
def acceptHeader : TargetKind → String
  | .artifact => "application/vnd.github+json"
  | .releaseAsset => "application/octet-stream"

/-- getActualDownloadUrl (github.ts lines 45-84) over an oracle list of
responses: each fetch consumes the head and the second component counts the
fetches made. A status in 300..399 yields the Location header value, or the
missing-target error when that header is absent; any other status yields the
redirect-expected error. The function fetches once and never retries. -/
def getActualDownloadUrl (_kind : TargetKind) (_token : Option String)
    (net : List RedirectResponse) : Except RedirectError String × Nat :=
  match net with
  | [] => (.error .noResponse, 0)
  | r :: _ =>
    if 300 ≤ r.status ∧ r.status < 400 then
      match r.location with
      | some l => (.ok l, 1)
      | none => (.error .missingRedirectTarget, 1)
    else (.error (.redirectExpected r.status r.statusText), 1)

/-- Response observed by the POST of submitAsyncScan: HTTP status and the
error text a failure branch would read. -/
structure SubmitResponse where
  status : Nat
  text : String
deriving DecidableEq

/-- Ends of submitAsyncScan: acceptance (the function returns void — it never
carries a verdict), the fatal service error carrying status and body, or a
network-level failure of the single fetch. -/
inductive SubmitResult
  | accepted
  | scanServiceError (status : Nat) (body : String)
  | networkError
deriving DecidableEq

/-- submitAsyncScan (api.ts lines 54-93) over an oracle list of responses,
counting fetches. The throw condition is the source text
`status !== 204 && status !== 201 && !response.ok`; everything else is
"submission accepted". One fetch, no retry. -/
def submitAsyncScan (net : List SubmitResponse) : SubmitResult × Nat :=
  match net with
  | [] => (.networkError, 0)
  | r :: _ =>
    if r.status ≠ 204 ∧ r.status ≠ 201 ∧ respOk r.status = false then
      (.scanServiceError r.status r.text, 1)
    else (.accepted, 1)

/-- JavaScript `a || b` on an optional string: the default replaces both the
absent and the empty string. -/
def jsOrStr (a : Option String) (b : String) : String :=
  match a with
  | some s => if s = "" then b else s
  | none => b

/-- Outcome of the verdict if/else chain at the end of run (main.ts lines
210-223): the setFailed branch, the infected-but-not-failed warning, the
clean info, the unscannable info, or no branch taken. -/
inductive RunVerdict
  | failedMalware (msg : String)
  | warnedNotFailed
  | cleanInfo
  | unscannableInfo
  | noBranch
deriving DecidableEq

/-- True exactly on the setFailed branch of the verdict chain. -/
def isFailedVerdict : RunVerdict → Bool
  | .failedMalware _ => true
  | _ => false

/-- The verdict if/else chain of run (main.ts lines 210-223), translated
branch for branch. -/
def failDecision (result : AVResponse) (failOnInfected : Bool) : RunVerdict :=
  if result.status = ScanStatus.infected ∧ failOnInfected = true then
    .failedMalware ("Malware detected in file: " ++ jsOrStr result.finding "Unknown threat")
  else if result.status = ScanStatus.infected then .warnedNotFailed
  else if result.status = ScanStatus.clean then .cleanInfo
  else if result.status = ScanStatus.no then .unscannableInfo
  else .noBranch

/-- How one invocation of run (main.ts lines 148-224) ends after the scan
step: the catch block turning a handler error into one setFailed call; the
uncaught TypeError raised by `result.size.toString()` on a body without size
(main.ts line 191, outside the try/catch); or the verdict chain. -/
inductive RunEnd
  | failedCaught
  | uncaughtTypeError
  | finished (verdict : RunVerdict)
deriving DecidableEq

/-- Tail of run (main.ts lines 173-224): handler errors are caught and become
setFailed; on success the output step dereferences result.size before the
verdict chain runs, crashing with an uncaught TypeError when size is absent. -/
def runTail (scanResult : Except String AVResponse) (failOnInfected : Bool) : RunEnd :=
  match scanResult with
  | .error _ => .failedCaught
  | .ok result =>
    match result.size with
    | none => .uncaughtTypeError
    | some _ => .finished (failDecision result failOnInfected)

end AttachmentAV

namespace AttachmentAV

/-- Helper: whenever handleLocalFilePath succeeds, the request it produced is
the bytes-only direct upload — a local file is never handed to a URL tier. -/
theorem handleLocalFilePath_ok_is_direct_upload (formatBytes : Nat → String) (path : String)
    (file : FsFile) (req : SentRequest)
    (hreq : handleLocalFilePath formatBytes path file = .ok req) :
    isSyncBinary req = true := by
  by_cases hp : file.present = false
  · simp [handleLocalFilePath, readFileAndCheckSize, hp] at hreq
  · by_cases hA : MAX_ASYNC_SIZE < file.size
    · simp [handleLocalFilePath, readFileAndCheckSize, hp, hA] at hreq
    · by_cases hS : MAX_SYNC_SIZE < file.size
      · simp [handleLocalFilePath, readFileAndCheckSize, hp, hA, hS] at hreq
      · simp [handleLocalFilePath, readFileAndCheckSize, hp, hA, hS,
          Nat.le_of_not_lt hS] at hreq
        rw [← hreq]
        rfl

end AttachmentAV

namespace AttachmentAV

/-- The loop guard of pollAsyncResult is `elapsed >= timeoutMs` with `elapsed`
initialised to 0, so for every positive configured timeout the body never
executes: the function throws the timeout error at once, with no fetch and no
sleep, regardless of what the result endpoint would answer. -/
theorem pollAsyncResult_times_out_immediately (respAt : Nat → ResultResponse)
    (t i : Nat) (h : 1 ≤ t) :
    pollAsyncResult respAt t i = .timedOut t 0 0 0 := by
  have h0 : ¬ (t * 1000 ≤ 0) := by omega
  simp [pollAsyncResult, pollGo, h0]

/-- C1: with pollingInterval 5 s and timeout 20 s, a result endpoint answering
404 before t = 5 s and 200 with a parseable clean/size-42 body afterwards, the
claim expects the clean outcome after exactly one sleep. The code instead
throws its timeout error immediately — 0 fetches, 0 sleeps, elapsed 0 ms —
because the loop guard `elapsed >= timeoutMs` is inverted and the poll body is
unreachable. -/
theorem c1_poll_returns_timeout_instead_of_outcome :
    pollAsyncResult c1Responses 20 5 = .timedOut 20 0 0 0 ∧
      ∀ e f s, pollAsyncResult c1Responses 20 5 ≠
        .result ⟨ScanStatus.clean, none, some 42, none⟩ e f s := by
  refine ⟨rfl, ?_⟩
  intro e f s hcontra
  simp [pollAsyncResult, pollGo] at hcontra

/-- C1 witness: the universally quantified disequality of the theorem holds at
the concrete instance e = 5000, f = 2, s = 1. -/
theorem c1_poll_returns_timeout_instead_of_outcome_witness :
    pollAsyncResult c1Responses 20 5 ≠
      .result ⟨ScanStatus.clean, none, some 42, none⟩ 5000 2 1 :=
  c1_poll_returns_timeout_instead_of_outcome.2 5000 2 1

/-- C2: with pollingInterval 5 s, timeout 12 s and a result endpoint answering
404 at every poll, the claim expects PollTimeout to be reported only at or
after t = 12 s (elapsed at least 12000 ms). The code reports the timeout at
elapsed 0 ms, before the deadline and without a single poll or sleep, because
the loop guard `elapsed >= timeoutMs` is inverted. -/
theorem c2_poll_timeout_fires_before_deadline :
    pollAsyncResult c2Responses 12 5 = .timedOut 12 0 0 0 ∧ 0 < 12 * 1000 := by
  exact ⟨rfl, by omega⟩

/-- C3: for every URL-based target scanned with a truthy credential, both
handleArtifact and handleReleaseAsset send the sync download request when the
reported size is strictly below 200 MiB (209715200 bytes) and the async submit
request when the size is at or above it. -/
theorem c3_url_transport_selection (artifactId assetId : Nat) (token : Option String)
    (artifact : Artifact) (asset : ReleaseAsset) (u1 u2 t1 t2 : String)
    (htok : jsTruthy token = true) :
    (artifact.size_in_bytes < 209715200 →
      (handleArtifact artifactId token artifact u1 t1).2 = .ok (.syncDownload ⟨u1, none⟩)) ∧
    (209715200 ≤ artifact.size_in_bytes →
      (handleArtifact artifactId token artifact u1 t1).2 =
        .ok (.asyncSubmit ⟨u1, buildDownloadHeaders token, t1⟩)) ∧
    (asset.size < 209715200 →
      (handleReleaseAsset assetId token asset u2 t2).2 = .ok (.syncDownload ⟨u2, none⟩)) ∧
    (209715200 ≤ asset.size →
      (handleReleaseAsset assetId token asset u2 t2).2 =
        .ok (.asyncSubmit ⟨u2, buildDownloadHeaders token, t2⟩)) := by
  have hth : SYNC_DOWNLOAD_THRESHOLD = 209715200 := rfl
  refine ⟨?_, ?_, ?_, ?_⟩
  · intro h
    simp [handleArtifact, htok, hth, h]
  · intro h
    have hn : ¬ (artifact.size_in_bytes < 209715200) := by omega
    simp [handleArtifact, htok, hth, hn]
  · intro h
    simp [handleReleaseAsset, hth, h]
  · intro h
    have hn : ¬ (asset.size < 209715200) := by omega
    simp [handleReleaseAsset, hth, hn]

/-- C3 witness: an artifact one byte below the threshold goes to sync
download, while a release asset of exactly 200 MiB goes to async submit. -/
theorem c3_url_transport_selection_witness :
    (handleArtifact 1 (some "tok") ⟨1, "a", 209715199, "m"⟩ "d1" "t1").2 =
      .ok (.syncDownload ⟨"d1", none⟩) ∧
    (handleReleaseAsset 2 (some "tok") ⟨2, "b", 209715200, "u", "w"⟩ "d2" "t2").2 =
      .ok (.asyncSubmit ⟨"d2", buildDownloadHeaders (some "tok"), "t2"⟩) := by
  have h := c3_url_transport_selection 1 2 (some "tok") ⟨1, "a", 209715199, "m"⟩
    ⟨2, "b", 209715200, "u", "w"⟩ "d1" "d2" "t1" "t2" (by decide)
  exact ⟨h.1 (by decide), h.2.2.2 (by decide)⟩

/-- C4 counterexample: a present local file of 10 MiB + 1 bytes fails inside
readFileAndCheckSize with the sync-API-limit error, whose message does not
tell the user to upload the file as a release asset or artifact; the message
the claim requires belongs to the unreachable branch of handleLocalFilePath. -/
theorem c4_counterexample_sync_limit_message :
    handleLocalFilePath (fun _ => "10 MB") "big.bin" ⟨true, 10485761, []⟩ =
      .error (.exceedsSyncLimit "10 MB") ∧
    mentionsArtifactUpload (localErrorMessage (.exceedsSyncLimit "10 MB")) = false ∧
    mentionsArtifactUpload (localErrorMessage .localFileTooLargeForSync) = true := by
  refine ⟨rfl, ?_, ?_⟩ <;> decide

/-- C4 amended: a present local file of size at most 10 MiB is read in full
and sent to the sync binary upload; any larger size fails inside
readFileAndCheckSize — with the sync-API-limit message up to 5 TB and the 5 TB
message beyond — and a successful local-file resolution is always the direct
upload, never a URL-based tier. -/
theorem c4_amended_local_file_resolution (formatBytes : Nat → String) (path : String)
    (file : FsFile) (hp : file.present = true) :
    (file.size ≤ MAX_SYNC_SIZE →
      handleLocalFilePath formatBytes path file = .ok (.syncBinary file.contents)) ∧
    (MAX_SYNC_SIZE < file.size → file.size ≤ MAX_ASYNC_SIZE →
      handleLocalFilePath formatBytes path file =
        .error (.exceedsSyncLimit (formatBytes file.size))) ∧
    (MAX_ASYNC_SIZE < file.size →
      handleLocalFilePath formatBytes path file =
        .error (.exceedsAsyncLimit (formatBytes file.size))) ∧
    (∀ req, handleLocalFilePath formatBytes path file = .ok req → isSyncBinary req = true) := by
  have h1 : MAX_SYNC_SIZE = 10485760 := rfl
  have h2 : MAX_ASYNC_SIZE = 5497558138880 := rfl
  refine ⟨?_, ?_, ?_, ?_⟩
  · intro h
    have hA : ¬ (MAX_ASYNC_SIZE < file.size) := by
      rw [h2]
      rw [h1] at h
      omega
    have hS : ¬ (MAX_SYNC_SIZE < file.size) := by
      rw [h1] at h ⊢
      omega
    simp [handleLocalFilePath, readFileAndCheckSize, hp, hA, hS, h]
  · intro h h5
    have hA : ¬ (MAX_ASYNC_SIZE < file.size) := by
      rw [h2] at h5 ⊢
      omega
    simp [handleLocalFilePath, readFileAndCheckSize, hp, hA, h]
  · intro h
    simp [handleLocalFilePath, readFileAndCheckSize, hp, h]
  · intro req hreq
    exact handleLocalFilePath_ok_is_direct_upload formatBytes path file req hreq

/-- C4 witness: a three-byte present file resolves to the direct upload of its
full contents. -/
theorem c4_amended_local_file_resolution_witness :
    handleLocalFilePath (fun _ => "3 Bytes") "f" ⟨true, 3, [7, 7, 7]⟩ =
      .ok (.syncBinary [7, 7, 7]) :=
  (c4_amended_local_file_resolution (fun _ => "3 Bytes") "f" ⟨true, 3, [7, 7, 7]⟩ rfl).1
    (by decide)

/-- C5 counterexample: an artifact below 200 MiB scanned with a bearer
credential present is sent over the sync download transport with no
download_headers at all — the credential is not forwarded on that URL-based
tier, refuting the claim that every URL-based tier carries it. -/
theorem c5_counterexample_sync_download_drops_credential :
    (handleArtifact 7 (some "ghs_tok") ⟨7, "art", 1024, "metaUrl"⟩ "redirUrl" "trace-1").2 =
      .ok (.syncDownload ⟨"redirUrl", none⟩) ∧
    jsTruthy (some "ghs_tok") = true := by
  exact ⟨rfl, rfl⟩

/-- C5 amended: the async submit request carries download_headers with the
Authorization Bearer entry when a truthy credential is present and omits the
field when no credential is present; the sync download request never carries
download_headers (the code sends only download_url, relying on the
pre-authenticated redirect URL); and a successful local-file scan is always
the bytes-only direct upload, which forwards no credential. -/
theorem c5_amended_header_forwarding (artifactId assetId : Nat) (t : String)
    (artifact : Artifact) (asset : ReleaseAsset) (u1 u2 tr1 tr2 path : String)
    (formatBytes : Nat → String) (file : FsFile) :
    (t ≠ "" → 209715200 ≤ artifact.size_in_bytes →
      (handleArtifact artifactId (some t) artifact u1 tr1).2 =
        .ok (.asyncSubmit ⟨u1, some [("Authorization", "Bearer " ++ t)], tr1⟩)) ∧
    (209715200 ≤ asset.size →
      (handleReleaseAsset assetId none asset u2 tr2).2 =
        .ok (.asyncSubmit ⟨u2, none, tr2⟩)) ∧
    (t ≠ "" → artifact.size_in_bytes < 209715200 →
      (handleArtifact artifactId (some t) artifact u1 tr1).2 =
        .ok (.syncDownload ⟨u1, none⟩)) ∧
    (asset.size < 209715200 →
      (handleReleaseAsset assetId none asset u2 tr2).2 =
        .ok (.syncDownload ⟨u2, none⟩)) ∧
    (∀ req, handleLocalFilePath formatBytes path file = .ok req → isSyncBinary req = true) := by
  have hth : SYNC_DOWNLOAD_THRESHOLD = 209715200 := rfl
  refine ⟨?_, ?_, ?_, ?_, ?_⟩
  · intro ht h
    have hn : ¬ (artifact.size_in_bytes < 209715200) := by omega
    simp [handleArtifact, jsTruthy, ht, hth, hn, buildDownloadHeaders]
  · intro h
    have hn : ¬ (asset.size < 209715200) := by omega
    simp [handleReleaseAsset, hth, hn, buildDownloadHeaders]
  · intro ht h
    simp [handleArtifact, jsTruthy, ht, hth, h]
  · intro h
    simp [handleReleaseAsset, hth, h]
  · intro req hreq
    exact handleLocalFilePath_ok_is_direct_upload formatBytes path file req hreq

/-- C5 witness: with token "tok" an artifact of exactly 200 MiB submits async
with the Bearer header, and with no token a release asset of the same size
submits async with download_headers omitted. -/
theorem c5_amended_header_forwarding_witness :
    (handleArtifact 1 (some "tok") ⟨1, "a", 209715200, "m"⟩ "d1" "tr1").2 =
      .ok (.asyncSubmit ⟨"d1", some [("Authorization", "Bearer " ++ "tok")], "tr1"⟩) ∧
    (handleReleaseAsset 2 none ⟨2, "b", 209715200, "u", "w"⟩ "d2" "tr2").2 =
      .ok (.asyncSubmit ⟨"d2", none, "tr2"⟩) := by
  have h := c5_amended_header_forwarding 1 2 "tok" ⟨1, "a", 209715200, "m"⟩
    ⟨2, "b", 209715200, "u", "w"⟩ "d1" "d2" "tr1" "tr2" "p" (fun _ => "") ⟨true, 0, []⟩
  exact ⟨h.1 (by decide) (by decide), h.2.1 (by decide)⟩

/-- C6: getActualDownloadUrl makes exactly one fetch; a status in 300..399
with a Location header yields exactly that location; the same range without a
Location header fails with the missing-redirect-target error; any status
outside the range, a 2xx included, fails with the redirect-expected error. -/
theorem c6_redirect_resolution (kind : TargetKind) (token : Option String)
    (r : RedirectResponse) (rest : List RedirectResponse) :
    (getActualDownloadUrl kind token (r :: rest)).2 = 1 ∧
    (∀ l, 300 ≤ r.status → r.status < 400 → r.location = some l →
      (getActualDownloadUrl kind token (r :: rest)).1 = .ok l) ∧
    (300 ≤ r.status → r.status < 400 → r.location = none →
      (getActualDownloadUrl kind token (r :: rest)).1 = .error .missingRedirectTarget) ∧
    (¬ (300 ≤ r.status ∧ r.status < 400) →
      (getActualDownloadUrl kind token (r :: rest)).1 =
        .error (.redirectExpected r.status r.statusText)) := by
  obtain ⟨s, st, loc⟩ := r
  refine ⟨?_, ?_, ?_, ?_⟩
  · simp [getActualDownloadUrl]
    split_ifs
    · cases loc <;> rfl
    · rfl
  · intro l h3 h4 hl
    subst hl
    simp [getActualDownloadUrl, h3, h4]
  · intro h3 h4 hl
    subst hl
    simp [getActualDownloadUrl, h3, h4]
  · intro hout
    simp [getActualDownloadUrl, hout]

/-- C6 witness: a 302 with Location X yields X in one call, a 200 fails with
redirect-expected, and a 302 without Location fails with
missing-redirect-target. -/
theorem c6_redirect_resolution_witness :
    (getActualDownloadUrl TargetKind.artifact none [⟨302, "Found", some "X"⟩]).1 = .ok "X" ∧
    (getActualDownloadUrl TargetKind.artifact none [⟨200, "OK", none⟩]).1 =
      .error (.redirectExpected 200 "OK") ∧
    (getActualDownloadUrl TargetKind.releaseAsset none [⟨302, "Found", none⟩]).1 =
      .error .missingRedirectTarget := by
  refine ⟨?_, ?_, ?_⟩
  · exact (c6_redirect_resolution TargetKind.artifact none ⟨302, "Found", some "X"⟩ []).2.1
      "X" (by decide) (by decide) rfl
  · exact (c6_redirect_resolution TargetKind.artifact none ⟨200, "OK", none⟩ []).2.2.2
      (by decide)
  · exact (c6_redirect_resolution TargetKind.releaseAsset none ⟨302, "Found", none⟩ []).2.2.1
      (by decide) (by decide) rfl

/-- C7: the verdict chain takes the setFailed branch exactly when the status
is infected and the fail-on-infected flag is true; an infected outcome with
the flag false is reported but not failed; an unscannable ("no") outcome never
fails whatever the flag. -/
theorem c7_fail_iff_infected_and_flag (r : AVResponse) (flag : Bool) :
    (isFailedVerdict (failDecision r flag) = true ↔
      (r.status = ScanStatus.infected ∧ flag = true)) ∧
    (r.status = ScanStatus.infected → flag = false →
      failDecision r flag = .warnedNotFailed) ∧
    (r.status = ScanStatus.no → isFailedVerdict (failDecision r flag) = false) := by
  obtain ⟨st, fnd, sz, rft⟩ := r
  cases st <;> cases flag <;> simp [failDecision, isFailedVerdict]

/-- C7 witness: an infected finding with the flag false warns without failing,
the same outcome with the flag true fails, and a "no" outcome with the flag
true does not fail. -/
theorem c7_fail_iff_infected_and_flag_witness :
    failDecision ⟨ScanStatus.infected, some "X", some 1, none⟩ false =
      RunVerdict.warnedNotFailed ∧
    isFailedVerdict (failDecision ⟨ScanStatus.infected, some "X", some 1, none⟩ true) = true ∧
    isFailedVerdict (failDecision ⟨ScanStatus.no, none, some 1, none⟩ true) = false := by
  have h1 := c7_fail_iff_infected_and_flag ⟨ScanStatus.infected, some "X", some 1, none⟩ false
  have h2 := c7_fail_iff_infected_and_flag ⟨ScanStatus.infected, some "X", some 1, none⟩ true
  have h3 := c7_fail_iff_infected_and_flag ⟨ScanStatus.no, none, some 1, none⟩ true
  exact ⟨h1.2.1 rfl rfl, h2.1.mpr ⟨rfl, rfl⟩, h3.2.2 rfl⟩

/-- C8: an artifact scan with a falsy (absent or empty) token fails at once
with the missing-credential error and an empty hosting-API call trace — the
check precedes the artifact metadata fetch. -/
theorem c8_missing_credential_before_hosting_call (artifactId : Nat) (token : Option String)
    (artifact : Artifact) (u tid : String) (h : jsTruthy token = false) :
    handleArtifact artifactId token artifact u tid =
      ([], .error (.missingCredential "GitHub token is required for scanning artifacts")) := by
  simp [handleArtifact, h]

/-- C8 witness: both the empty-string token and the absent token fail with the
missing-credential error and no hosting-API call. -/
theorem c8_missing_credential_before_hosting_call_witness :
    handleArtifact 3 (some "") ⟨3, "a", 5, "m"⟩ "d" "t" =
      ([], .error (.missingCredential "GitHub token is required for scanning artifacts")) ∧
    handleArtifact 3 none ⟨3, "a", 5, "m"⟩ "d" "t" =
      ([], .error (.missingCredential "GitHub token is required for scanning artifacts")) :=
  ⟨c8_missing_credential_before_hosting_call 3 (some "") ⟨3, "a", 5, "m"⟩ "d" "t" rfl,
   c8_missing_credential_before_hosting_call 3 none ⟨3, "a", 5, "m"⟩ "d" "t" rfl⟩

/-- C9: submitAsyncScan accepts HTTP 201 and HTTP 204 as submission accepted
(returning no verdict — the accepted result carries nothing), makes exactly
one fetch, and turns every non-2xx status into the fatal scan-service error
carrying the status and the response body. -/
theorem c9_submit_accepts_201_204_rejects_non2xx (b : String) (s : Nat)
    (rest : List SubmitResponse) :
    submitAsyncScan (⟨201, b⟩ :: rest) = (.accepted, 1) ∧
    submitAsyncScan (⟨204, b⟩ :: rest) = (.accepted, 1) ∧
    (¬ (200 ≤ s ∧ s ≤ 299) → submitAsyncScan (⟨s, b⟩ :: rest) = (.scanServiceError s b, 1)) := by
  refine ⟨?_, ?_, ?_⟩
  · simp [submitAsyncScan]
  · simp [submitAsyncScan]
  · intro h
    have h204 : s ≠ 204 := by omega
    have h201 : s ≠ 201 := by omega
    have hok : respOk s = false := by
      simp [respOk]
      omega
    simp [submitAsyncScan, h204, h201, hok]

/-- C9 witness: a 201 is accepted and a 500 with body text becomes the fatal
scan-service error carrying both. -/
theorem c9_submit_accepts_201_204_rejects_non2xx_witness :
    submitAsyncScan [⟨201, "x"⟩] = (.accepted, 1) ∧
    submitAsyncScan [⟨500, "boom"⟩] = (.scanServiceError 500 "boom", 1) :=
  ⟨(c9_submit_accepts_201_204_rejects_non2xx "x" 0 []).1,
   (c9_submit_accepts_201_204_rejects_non2xx "boom" 500 []).2.2 (by omega)⟩

/-- C10: a scan result whose body lacks the size field reaches the output
step, where `result.size.toString()` runs outside the try/catch of run: the
invocation ends in the uncaught TypeError, not in the caught setFailed path. -/
theorem c10_missing_size_uncaught_type_error (r : AVResponse) (flag : Bool)
    (h : r.size = none) :
    runTail (.ok r) flag = .uncaughtTypeError ∧ runTail (.ok r) flag ≠ .failedCaught := by
  obtain ⟨st, fnd, sz, rft⟩ := r
  simp only at h
  subst h
  exact ⟨rfl, by simp [runTail]⟩

/-- C10 witness: a clean outcome without a size crashes with the uncaught
TypeError. -/
theorem c10_missing_size_uncaught_type_error_witness :
    runTail (.ok ⟨ScanStatus.clean, none, none, none⟩) true = RunEnd.uncaughtTypeError :=
  (c10_missing_size_uncaught_type_error ⟨ScanStatus.clean, none, none, none⟩ true rfl).1

end AttachmentAV
